import Mathlib

/-!
Verification of the payment-admission gate of the marketplace service template.

The handler under verification is `serviceRouter.get('/run')` in `src/service.ts`.
Its collaborators from `src/payment.ts` and `src/proxy.ts` (payment-claim
extraction, chain verification, replay guard, retrying proxy fetch) are not part
of the provided sources; where a claim is decided by that code it is modelled
from the specification, and otherwise those collaborators enter the handler
model as oracle inputs (the handler consumes only their results).
-/

namespace MarketGate

/-- The two supported payment networks (spec §3: `Network ∈ {solana, base}`). -/
inductive Network where
  | solana
  | base
deriving DecidableEq, Repr

/-- Result of the Replay Guard's `consume` operation (spec §4.6). -/
inductive ConsumeResult where
  | firstUse
  | alreadyUsed
deriving DecidableEq, Repr

/-- The Replay Guard's store: the set of consumed `(network, transactionId)`
pairs, represented as the list of insertions (append-only for the process
lifetime, spec §3). -/
abbrev ReplayState := List (Network × String)

/-- Modelled from the spec: the Replay Guard lives in `src/payment.ts`, which is
not among the provided sources. §4.6: `consume(network, transactionId) →
FirstUse | AlreadyUsed`, an atomic check-and-set; §3: entries are append-only,
never removed or updated. -/
def consume (s : ReplayState) (p : Network × String) : ConsumeResult × ReplayState :=
  if p ∈ s then (ConsumeResult.alreadyUsed, s) else (ConsumeResult.firstUse, p :: s)

/-- The sequence of results of running a trace of `consume` calls, one call per
list element, threading the Replay Guard state. The trace interleaves calls for
arbitrary pairs, as concurrent requests would (the spec's atomicity requirement
means each call is a single indivisible step, which is what sequential threading
models). -/
def runConsume : ReplayState → List (Network × String) → List ConsumeResult
  | _, [] => []
  | s, p :: ps => (consume s p).1 :: runConsume (consume s p).2 ps

/-- The Replay Guard state after running a trace of `consume` calls. -/
def stateAfter : ReplayState → List (Network × String) → ReplayState
  | s, [] => s
  | s, p :: ps => stateAfter (consume s p).2 ps

theorem mem_consume_snd (s : ReplayState) (p q : Network × String) :
    q ∈ (consume s p).2 ↔ q = p ∨ q ∈ s := by
  unfold consume
  by_cases h : p ∈ s
  · rw [if_pos h]
    constructor
    · exact fun hq => Or.inr hq
    · rintro (rfl | hq)
      · exact h
      · exact hq
  · rw [if_neg h]
    exact List.mem_cons

theorem runConsume_getElem? (ops : List (Network × String)) :
    ∀ (s : ReplayState) (i : Nat) (p : Network × String), ops[i]? = some p →
      (runConsume s ops)[i]? =
        some (if p ∈ s ∨ p ∈ ops.take i then ConsumeResult.alreadyUsed
              else ConsumeResult.firstUse) := by
  induction ops with
  | nil => intro s i p hp; simp at hp
  | cons q tl ih =>
    intro s i p hp
    cases i with
    | zero =>
      obtain rfl : q = p := by simpa using hp
      simp only [runConsume, List.getElem?_cons_zero, List.take_zero,
        List.not_mem_nil, or_false, Option.some.injEq]
      unfold consume
      by_cases h : q ∈ s
      · rw [if_pos h, if_pos h]
      · rw [if_neg h, if_neg h]
    | succ n =>
      simp only [List.getElem?_cons_succ] at hp
      simp only [runConsume, List.getElem?_cons_succ]
      rw [ih (consume s q).2 n p hp]
      congr 1
      by_cases hmem : p ∈ (consume s q).2 ∨ p ∈ tl.take n
      · rw [if_pos hmem, if_pos]
        rcases hmem with hmem | hmem
        · rcases (mem_consume_snd s q p).mp hmem with rfl | hmem
          · exact Or.inr (by simp [List.take_succ_cons])
          · exact Or.inl hmem
        · exact Or.inr (by simp [List.take_succ_cons, hmem])
      · rw [if_neg hmem, if_neg]
        intro hcon
        apply hmem
        rcases hcon with hcon | hcon
        · exact Or.inl ((mem_consume_snd s q p).mpr (Or.inr hcon))
        · rw [List.take_succ_cons, List.mem_cons] at hcon
          rcases hcon with rfl | hcon
          · exact Or.inl ((mem_consume_snd s p p).mpr (Or.inl rfl))
          · exact Or.inr hcon

theorem mem_stateAfter (ops : List (Network × String)) :
    ∀ (s : ReplayState) (q : Network × String),
      q ∈ stateAfter s ops ↔ q ∈ s ∨ q ∈ ops := by
  induction ops with
  | nil => intro s q; simp [stateAfter]
  | cons p tl ih =>
    intro s q
    simp only [stateAfter]
    rw [ih, mem_consume_snd, List.mem_cons]
    tauto

/-- C1: for every pair `(network, transactionId)`, in any interleaved trace of
`consume` calls starting from the empty (process-start) store, a call returns
`FirstUse` exactly when the identical pair has not been consumed earlier in the
trace (so the first call on a pair returns `FirstUse` and every later call on
that pair returns `AlreadyUsed`, regardless of interleaving with other pairs);
a pair is present in the store afterwards exactly when it was consumed, and the
store only grows along the trace (absent → present exactly once). -/
theorem replay_guard_consume_at_most_once (ops : List (Network × String)) (i : Nat)
    (p : Network × String) (hp : ops[i]? = some p) :
    ((runConsume [] ops)[i]? = some ConsumeResult.firstUse ↔ p ∉ ops.take i)
    ∧ (∀ q : Network × String, q ∈ stateAfter [] ops ↔ q ∈ ops)
    ∧ (∀ (n : Nat) (q : Network × String),
        q ∈ stateAfter [] (ops.take n) → q ∈ stateAfter [] ops) := by
  refine ⟨?_, ?_, ?_⟩
  · rw [runConsume_getElem? ops [] i p hp]
    by_cases h : p ∈ ops.take i
    · simp [h]
    · simp [h]
  · intro q
    simp [mem_stateAfter]
  · intro n q hq
    rw [mem_stateAfter] at hq ⊢
    rcases hq with hq | hq
    · exact Or.inl hq
    · exact Or.inr (List.take_subset n ops hq)

theorem replay_guard_consume_at_most_once_witness :
    ((runConsume []
        [(Network.solana, "sig1"), (Network.base, "0xaaa"), (Network.solana, "sig1")])[2]? =
          some ConsumeResult.firstUse ↔
        (Network.solana, "sig1") ∉
          [(Network.solana, "sig1"), (Network.base, "0xaaa"), (Network.solana, "sig1")].take 2)
    ∧ (∀ q : Network × String,
        q ∈ stateAfter []
            [(Network.solana, "sig1"), (Network.base, "0xaaa"), (Network.solana, "sig1")] ↔
          q ∈ [(Network.solana, "sig1"), (Network.base, "0xaaa"), (Network.solana, "sig1")])
    ∧ (∀ (n : Nat) (q : Network × String),
        q ∈ stateAfter []
            ([(Network.solana, "sig1"), (Network.base, "0xaaa"), (Network.solana, "sig1")].take n) →
          q ∈ stateAfter []
            [(Network.solana, "sig1"), (Network.base, "0xaaa"), (Network.solana, "sig1")]) :=
  replay_guard_consume_at_most_once
    [(Network.solana, "sig1"), (Network.base, "0xaaa"), (Network.solana, "sig1")]
    2 (Network.solana, "sig1") (by decide)

/-- Reasons a Chain Verifier can reject a claim (spec §7 taxonomy, verification
path). -/
inductive RejectReason where
  | amountMismatch
  | recipientMismatch
  | txNotFound
  | pending
  | rpcUnavailable
deriving DecidableEq, Repr

/-- Outcome of a chain verification (spec §3: `Accepted | Rejected(reason)`). -/
inductive VerifyOutcome where
  | accepted
  | rejected (reason : RejectReason)
deriving DecidableEq, Repr

/-- The on-chain transfer a Chain Verifier observes for a claimed transaction:
payer, recipient and transferred amount converted to USD. -/
structure ObservedTransfer where
  payer : String
  recipient : String
  amountUsd : ℚ

/-- Spec §3: `VerificationResult = { outcome, payer, recipient, amountUsd }`,
produced once per claim and never mutated. -/
structure VerificationResult where
  outcome : VerifyOutcome
  payer : String
  recipient : String
  amountUsd : ℚ

/-- Modelled from the spec: the two Chain Verifier variants live in
`src/payment.ts`, which is not among the provided sources. Per §4.5 both
variants share one decision rule once the transfer has been fetched from the
chain (the RPC lookup is abstracted into the `ObservedTransfer` argument):
amount below `requiredPriceUsd × 0.98` → `AmountMismatch`, recipient mismatch →
`RecipientMismatch`, otherwise `Accepted`. -/
def verifyChain (tx : ObservedTransfer) (requiredRecipient : String)
    (requiredPriceUsd : ℚ) : VerificationResult :=
  if tx.amountUsd < requiredPriceUsd * (98 / 100) then
    ⟨VerifyOutcome.rejected RejectReason.amountMismatch, tx.payer, tx.recipient, tx.amountUsd⟩
  else if tx.recipient ≠ requiredRecipient then
    ⟨VerifyOutcome.rejected RejectReason.recipientMismatch, tx.payer, tx.recipient, tx.amountUsd⟩
  else
    ⟨VerifyOutcome.accepted, tx.payer, tx.recipient, tx.amountUsd⟩

/-- C2: the Chain Verifier accepts only when `amountUsd ≥ requiredPriceUsd ×
0.98`; an amount of exactly `price × 0.98` (with the configured recipient) is
accepted; an amount of `price × 0.98 − 0.01` is rejected with `AmountMismatch`. -/
theorem chain_verifier_tolerance (tx : ObservedTransfer) (wallet : String) (price : ℚ) :
    ((verifyChain tx wallet price).outcome = VerifyOutcome.accepted →
      price * (98 / 100) ≤ tx.amountUsd)
    ∧ (tx.recipient = wallet → tx.amountUsd = price * (98 / 100) →
        (verifyChain tx wallet price).outcome = VerifyOutcome.accepted)
    ∧ (tx.amountUsd = price * (98 / 100) - 1 / 100 →
        (verifyChain tx wallet price).outcome =
          VerifyOutcome.rejected RejectReason.amountMismatch) := by
  refine ⟨?_, ?_, ?_⟩
  · intro hacc
    by_contra hlt
    push_neg at hlt
    simp only [verifyChain, if_pos hlt] at hacc
    exact absurd hacc (by simp)
  · intro hrec hamt
    have hnlt : ¬ tx.amountUsd < price * (98 / 100) := by
      rw [hamt]; exact lt_irrefl _
    simp [verifyChain, hnlt, hrec]
  · intro hamt
    have hlt : tx.amountUsd < price * (98 / 100) := by
      rw [hamt]; linarith
    simp [verifyChain, hlt]

theorem chain_verifier_tolerance_witness :
    (verifyChain ⟨"payerA", "walletW", 98 / 100⟩ "walletW" 1).outcome =
        VerifyOutcome.accepted
    ∧ (verifyChain ⟨"payerA", "walletW", 97 / 100⟩ "walletW" 1).outcome =
        VerifyOutcome.rejected RejectReason.amountMismatch :=
  ⟨(chain_verifier_tolerance ⟨"payerA", "walletW", 98 / 100⟩ "walletW" 1).2.1 rfl
      (by norm_num),
   (chain_verifier_tolerance ⟨"payerA", "walletW", 97 / 100⟩ "walletW" 1).2.2
      (by norm_num)⟩

/-- `s.startsWith p`, computed on the underlying character lists (the handler
compares hostname text character by character; no Unicode normalisation). -/
def strStarts (s p : String) : Bool := p.data.isPrefixOf s.data

/-- `s.endsWith p`, computed on the underlying character lists. -/
def strEnds (s p : String) : Bool := p.data.isSuffixOf s.data

/-- JavaScript `toLowerCase()` on the ASCII range, computed per character. -/
def lowerStr (s : String) : String := String.mk (s.data.map Char.toLower)

/-- An unverified payment claim extracted from request headers (spec §3); the
handler reads its `txHash` and `network` fields (`service.ts` lines 113 and
121–123). -/
structure PaymentClaim where
  txHash : String
  network : Network
deriving DecidableEq, Repr

/-- The result object of `verifyPayment` as the handler consumes it
(`service.ts` lines 67, 70, 124: fields `valid`, `error`, `amount`). -/
structure Verification where
  valid : Bool
  error : Option String
  amount : Option ℚ

/-- The components of a parsed URL the handler inspects (`service.ts` lines
83–87: `parsed.protocol`, `parsed.hostname`). The WHATWG `URL` parser keeps the
trailing colon on `protocol` and lowercases scheme and host. -/
structure ParsedUrl where
  protocol : String
  hostname : String
deriving DecidableEq, Repr

/-- The upstream response the handler consumes (`service.ts` lines 107–108:
`response.status` and the awaited `response.text()`). -/
structure FetchResp where
  status : Nat
  text : String
deriving DecidableEq, Repr

/-- `OUTPUT_SCHEMA` from `service.ts` lines 30–41, one field per schema entry. -/
structure OutputSchema where
  inputUrl : String
  outputUrl : String
  outputStatus : String
  outputText : String
  outputContentLength : String
  outputProxy : String
deriving DecidableEq, Repr

def SERVICE_NAME : String := "web-scraper"

def PRICE_USDC : ℚ := 5 / 1000

def DESCRIPTION : String :=
  "Fetch any webpage through a real 4G/5G mobile IP. Returns clean text content."

def OUTPUT_SCHEMA : OutputSchema :=
  ⟨"string — URL to fetch (required)",
   "string — the URL that was fetched",
   "number — HTTP status code from the target",
   "string — page text content (max 50KB)",
   "number — original content length in bytes",
   "\x7b country: string, type: \"mobile\" \x7d"⟩

/-- The 402 payment-instructions body (spec §6: `\x7b price, wallet, networks,
endpoint, description, schema \x7d`). -/
structure Instructions402 where
  price : ℚ
  wallet : String
  networks : List Network
  endpoint : String
  description : String
  schema : OutputSchema

/-- Modelled from the spec: `build402Response` lives in `src/payment.ts`, which
is not among the provided sources. §6 gives the body shape `\x7b price, wallet,
networks: [...], endpoint, description, schema \x7d`; the supported networks are
solana and base (§3). The handler calls it as
`build402Response('/api/run', DESCRIPTION, PRICE_USDC, walletAddress,
OUTPUT_SCHEMA)` (`service.ts` line 59). -/
def build402Response (endpoint : String) (description : String) (price : ℚ)
    (wallet : String) (schema : OutputSchema) : Instructions402 :=
  ⟨price, wallet, [Network.solana, Network.base], endpoint, description, schema⟩

/-- The success payload of `service.ts` lines 115–127, flattened: `url`,
`status`, `text`, `contentLength`, `proxy.country` and the nested `payment`
object (`txHash`, `network`, `amount`, `settled`). -/
structure SuccessPayload where
  url : String
  status : Nat
  text : String
  contentLength : Nat
  proxyCountry : String
  paymentTxHash : String
  paymentNetwork : Network
  paymentAmount : Option ℚ
  settled : Bool

/-- The JSON body of each handler response, one constructor per shape appearing
in `service.ts`: `\x7b error \x7d` (`jsonError`), the 402 instructions, the 402
verification failure `\x7b error, reason, hint \x7d`, the 200 success payload,
and the 502 `\x7b error, message, hint \x7d`. -/
inductive RespBody where
  | jsonError (error : String)
  | paymentInstructions (body : Instructions402)
  | verificationFailed (error : String) (reason : Option String) (hint : String)
  | success (payload : SuccessPayload)
  | executionFailed (error : String) (message : String) (hint : String)

/-- Everything the `/run` handler reads from its environment for one request:
the `WALLET_ADDRESS` environment variable, the result of `extractPayment`, the
result of `verifyPayment` (consulted only when a claim is present), the `url`
query parameter, the result of `new URL(url)` (`none` = the constructor threw),
the result of `proxyFetch` + `response.text()` (`Except.error` = it threw, after
the fetch client's internal retries), and `getProxy().country`. -/
structure HandlerInput where
  walletAddress : Option String
  payment : Option PaymentClaim
  verification : Verification
  urlParam : Option String
  parsedUrl : Option ParsedUrl
  fetchResult : Except String FetchResp
  proxyCountry : String

/-- The observable outcome of one handler run: HTTP status, JSON body, response
headers set via `c.header`, plus two instrumentation flags recording whether
control reached the `verifyPayment` call (step 2) and the proxy-fetch block
(step 4). -/
structure HandlerOutcome where
  status : Nat
  body : RespBody
  headers : List (String × String)
  verified : Bool
  fetchAttempted : Bool

/-- JavaScript `['http:', 'https:'].includes(p)` from `service.ts` line 84. -/
def allowedProtocol (p : String) : Bool := p == "http:" || p == "https:"

/-- The hostname block-list of `service.ts` lines 88–97, verbatim. -/
def blockedHost (host : String) : Bool :=
  host == "localhost" ||
  strStarts host "127." ||
  strStarts host "10." ||
  strStarts host "192.168." ||
  strStarts host "172." ||
  host == "169.254.169.254" ||
  strEnds host ".local" ||
  strEnds host ".internal"

/-- `text.length > maxLen ? text.substring(0, maxLen) : text` with
`maxLen = 50_000` (`service.ts` lines 109 and 118), on characters. -/
def truncateText (t : String) : String :=
  if t.length > 50000 then t.take 50000 else t

/-- The `/run` handler of `service.ts` lines 46–134 as a function of the
request's oracle inputs. Falsy string checks (`!walletAddress`, `!url`) are
modelled as "absent or empty". -/
def runHandler (i : HandlerInput) : HandlerOutcome :=
  match i.walletAddress with
  | none =>
      ⟨500, RespBody.jsonError "Service misconfigured: WALLET_ADDRESS not set",
       [], false, false⟩
  | some wallet =>
    if wallet = "" then
      ⟨500, RespBody.jsonError "Service misconfigured: WALLET_ADDRESS not set",
       [], false, false⟩
    else
      match i.payment with
      | none =>
          ⟨402,
           RespBody.paymentInstructions
             (build402Response "/api/run" DESCRIPTION PRICE_USDC wallet OUTPUT_SCHEMA),
           [], false, false⟩
      | some payment =>
        if i.verification.valid = false then
          ⟨402,
           RespBody.verificationFailed "Payment verification failed"
             i.verification.error
             "Ensure the transaction is confirmed and sends the correct USDC amount to the recipient wallet.",
           [], true, false⟩
        else
          match i.urlParam with
          | none =>
              ⟨400, RespBody.jsonError "Missing required parameter: ?url=<target_url>",
               [], true, false⟩
          | some url =>
            if url = "" then
              ⟨400, RespBody.jsonError "Missing required parameter: ?url=<target_url>",
               [], true, false⟩
            else
              match i.parsedUrl with
              | none =>
                  ⟨400, RespBody.jsonError "Invalid URL format", [], true, false⟩
              | some parsed =>
                if allowedProtocol parsed.protocol = false then
                  ⟨400, RespBody.jsonError "Only http:// and https:// URLs are allowed",
                   [], true, false⟩
                else if blockedHost (lowerStr parsed.hostname) = true then
                  ⟨400, RespBody.jsonError "Private/internal URLs are not allowed",
                   [], true, false⟩
                else
                  match i.fetchResult with
                  | Except.error msg =>
                      ⟨502,
                       RespBody.executionFailed "Service execution failed" msg
                         "The target URL may be unreachable or the proxy may be temporarily unavailable.",
                       [], true, true⟩
                  | Except.ok resp =>
                      ⟨200,
                       RespBody.success
                         ⟨url, resp.status, truncateText resp.text, resp.text.length,
                          i.proxyCountry, payment.txHash, payment.network,
                          i.verification.amount, true⟩,
                       [("X-Payment-Settled", "true"), ("X-Payment-TxHash", payment.txHash)],
                       true, true⟩

/-- Modelled from the spec: the handler delegates URL parsing to the platform's
WHATWG `URL` constructor, which is not part of the repository. Simplified to
absolute URLs of the form `scheme://host[/path]` without userinfo, port or
percent-escapes: the scheme is everything before the first `://` (kept with a
trailing colon, as WHATWG does), the hostname everything from there to the next
`/`; both are lowercased as WHATWG does for special schemes. -/
def splitScheme : List Char → Option (List Char × List Char)
  | [] => none
  | ':' :: '/' :: '/' :: rest => some ([], rest)
  | c :: rest =>
    match splitScheme rest with
    | some (pre, post) => some (c :: pre, post)
    | none => none

/-- The host part of the remainder after `://`: characters up to the first `/`. -/
def hostOf : List Char → List Char
  | [] => []
  | '/' :: _ => []
  | c :: rest => c :: hostOf rest

/-- Parse an absolute URL string into the components the handler inspects; see
`splitScheme` for the modelling note. -/
def parseUrl (s : String) : Option ParsedUrl :=
  match splitScheme s.data with
  | none => none
  | some (scheme, rest) =>
    let host := hostOf rest
    if scheme = [] ∨ host = [] then none
    else some ⟨lowerStr (String.mk scheme) ++ ":", lowerStr (String.mk host)⟩

theorem allowedProtocol_iff (p : String) :
    allowedProtocol p = true ↔ (p = "http:" ∨ p = "https:") := by
  simp [allowedProtocol]

theorem blockedHost_iff (h : String) :
    blockedHost h = true ↔
      (h = "localhost" ∨ strStarts h "127." = true ∨ strStarts h "10." = true ∨
       strStarts h "192.168." = true ∨ strStarts h "172." = true ∨
       h = "169.254.169.254" ∨ strEnds h ".local" = true ∨
       strEnds h ".internal" = true) := by
  simp [blockedHost, Bool.or_eq_true, or_assoc]

/-- C8: when `WALLET_ADDRESS` is unset the handler responds 500 with a
misconfiguration error body before any other work: `verifyPayment` is never
consulted and no outbound fetch happens, whatever the rest of the request looks
like (the handler returns normally, so only the request fails, not the
process). -/
theorem missing_wallet_fails_request_first (pay : Option PaymentClaim)
    (ver : Verification) (up : Option String) (pu : Option ParsedUrl)
    (fr : Except String FetchResp) (cn : String) :
    runHandler ⟨none, pay, ver, up, pu, fr, cn⟩ =
      ⟨500, RespBody.jsonError "Service misconfigured: WALLET_ADDRESS not set",
       [], false, false⟩ := rfl

/-- C5: a request carrying no payment claim short-circuits to 402 with the full
payment-instructions body — price, recipient wallet, supported networks,
endpoint, description and output schema — rather than an error; `verifyPayment`
is never consulted and no outbound fetch happens. -/
theorem no_claim_short_circuits_to_instructions (w : String) (hw : w ≠ "")
    (ver : Verification) (up : Option String) (pu : Option ParsedUrl)
    (fr : Except String FetchResp) (cn : String) :
    runHandler ⟨some w, none, ver, up, pu, fr, cn⟩ =
      ⟨402,
       RespBody.paymentInstructions
         ⟨PRICE_USDC, w, [Network.solana, Network.base], "/api/run", DESCRIPTION,
          OUTPUT_SCHEMA⟩,
       [], false, false⟩ := by
  simp [runHandler, hw, build402Response]

theorem no_claim_short_circuits_to_instructions_witness :
    runHandler ⟨some "0xWALLET", none, ⟨true, none, none⟩, some "https://example.com",
        none, Except.error "unused", "US"⟩ =
      ⟨402,
       RespBody.paymentInstructions
         ⟨PRICE_USDC, "0xWALLET", [Network.solana, Network.base], "/api/run",
          DESCRIPTION, OUTPUT_SCHEMA⟩,
       [], false, false⟩ :=
  no_claim_short_circuits_to_instructions "0xWALLET" (by decide) ⟨true, none, none⟩
    (some "https://example.com") none (Except.error "unused") "US"

/-- C4: when the extracted claim fails on-chain verification (`valid = false`)
the handler responds 402 with a body of exactly the fields `error`, `reason`
and `hint`, and no outbound fetch of the client-supplied url happens (the
fetch-attempted flag is false): a non-accepted verification never executes the
paid work. -/
theorem verification_failure_402_no_fetch (w : String) (hw : w ≠ "")
    (pc : PaymentClaim) (err : Option String) (amt : Option ℚ)
    (up : Option String) (pu : Option ParsedUrl) (fr : Except String FetchResp)
    (cn : String) :
    runHandler ⟨some w, some pc, ⟨false, err, amt⟩, up, pu, fr, cn⟩ =
      ⟨402,
       RespBody.verificationFailed "Payment verification failed" err
         "Ensure the transaction is confirmed and sends the correct USDC amount to the recipient wallet.",
       [], true, false⟩ := by
  simp [runHandler, hw]

theorem verification_failure_402_no_fetch_witness :
    runHandler ⟨some "0xWALLET", some ⟨"0xdeadbeef", Network.base⟩,
        ⟨false, some "Transaction not found", none⟩, some "https://example.com",
        none, Except.error "unused", "US"⟩ =
      ⟨402,
       RespBody.verificationFailed "Payment verification failed"
         (some "Transaction not found")
         "Ensure the transaction is confirmed and sends the correct USDC amount to the recipient wallet.",
       [], true, false⟩ :=
  verification_failure_402_no_fetch "0xWALLET" (by decide)
    ⟨"0xdeadbeef", Network.base⟩ (some "Transaction not found") none
    (some "https://example.com") none (Except.error "unused") "US"

/-- C9: with a payment claim present and verification returning valid, a
missing (or empty) `url` parameter, or one the URL constructor throws on, is
answered 400 — but only after `verifyPayment` has already completed (the
verified flag is true), and without performing the paid fetch: the payment
proof is consumed without the paid work being performed. -/
theorem verify_runs_before_url_validation (w : String) (hw : w ≠ "")
    (pc : PaymentClaim) (err : Option String) (amt : Option ℚ)
    (up : Option String) (pu : Option ParsedUrl) (fr : Except String FetchResp)
    (cn : String) (hbad : up = none ∨ up = some "" ∨ pu = none) :
    (runHandler ⟨some w, some pc, ⟨true, err, amt⟩, up, pu, fr, cn⟩).status = 400
    ∧ (runHandler ⟨some w, some pc, ⟨true, err, amt⟩, up, pu, fr, cn⟩).verified = true
    ∧ (runHandler ⟨some w, some pc, ⟨true, err, amt⟩, up, pu, fr, cn⟩).fetchAttempted
        = false := by
  rcases hbad with rfl | rfl | rfl
  · simp [runHandler, hw]
  · simp [runHandler, hw]
  · cases up with
    | none => simp [runHandler, hw]
    | some url =>
      by_cases hu : url = ""
      · subst hu; simp [runHandler, hw]
      · simp [runHandler, hw, hu]

theorem verify_runs_before_url_validation_witness :
    (runHandler ⟨some "0xWALLET", some ⟨"0xdeadbeef", Network.base⟩,
        ⟨true, none, some (5 / 1000)⟩, none, none, Except.error "unused", "US"⟩).status
        = 400
    ∧ (runHandler ⟨some "0xWALLET", some ⟨"0xdeadbeef", Network.base⟩,
        ⟨true, none, some (5 / 1000)⟩, none, none, Except.error "unused", "US"⟩).verified
        = true
    ∧ (runHandler ⟨some "0xWALLET", some ⟨"0xdeadbeef", Network.base⟩,
        ⟨true, none, some (5 / 1000)⟩, none, none,
          Except.error "unused", "US"⟩).fetchAttempted = false :=
  verify_runs_before_url_validation "0xWALLET" (by decide)
    ⟨"0xdeadbeef", Network.base⟩ none (some (5 / 1000)) none none
    (Except.error "unused") "US" (Or.inl rfl)

/-- C3: for a request that has passed wallet, payment and url-presence checks
and whose url parsed into `(protocol, hostname)` (WHATWG-lowercased, hence the
`lowerStr hostname = hostname` hypothesis), the handler rejects with 400, a
`\x7b error \x7d` JSON body and no outbound fetch exactly when the scheme is
not http/https, or the hostname equals `localhost`, starts with `127.`, `10.`,
`192.168.` or `172.`, equals `169.254.169.254`, or ends with `.local` or
`.internal`. -/
theorem ssrf_guard_rejects_iff (w : String) (hw : w ≠ "") (pc : PaymentClaim)
    (err : Option String) (amt : Option ℚ) (url : String) (hu : url ≠ "")
    (proto host : String) (hhost : lowerStr host = host)
    (fr : Except String FetchResp) (cn : String) (out : HandlerOutcome)
    (hout : out = runHandler ⟨some w, some pc, ⟨true, err, amt⟩, some url,
        some ⟨proto, host⟩, fr, cn⟩) :
    (out.status = 400 ↔
      (¬(proto = "http:" ∨ proto = "https:") ∨ host = "localhost" ∨
        strStarts host "127." = true ∨ strStarts host "10." = true ∨
        strStarts host "192.168." = true ∨ strStarts host "172." = true ∨
        host = "169.254.169.254" ∨ strEnds host ".local" = true ∨
        strEnds host ".internal" = true))
    ∧ (out.status = 400 →
        (∃ e, out.body = RespBody.jsonError e) ∧ out.fetchAttempted = false) := by
  subst hout
  by_cases hp : allowedProtocol proto = true
  · by_cases hb : blockedHost host = true
    · have hred : runHandler ⟨some w, some pc, ⟨true, err, amt⟩, some url,
          some ⟨proto, host⟩, fr, cn⟩ =
            ⟨400, RespBody.jsonError "Private/internal URLs are not allowed",
             [], true, false⟩ := by
        simp [runHandler, hw, hu, hp, hhost, hb]
      rw [hred]
      refine ⟨?_, fun _ => ⟨⟨_, rfl⟩, rfl⟩⟩
      simp only [true_iff]
      exact Or.inr ((blockedHost_iff host).mp hb)
    · have hb2 : blockedHost host = false := by
        revert hb; cases blockedHost host <;> simp
      have hnone : ¬(¬(proto = "http:" ∨ proto = "https:") ∨ host = "localhost" ∨
          strStarts host "127." = true ∨ strStarts host "10." = true ∨
          strStarts host "192.168." = true ∨ strStarts host "172." = true ∨
          host = "169.254.169.254" ∨ strEnds host ".local" = true ∨
          strEnds host ".internal" = true) := by
        rintro (hcon | hcon)
        · exact hcon ((allowedProtocol_iff proto).mp hp)
        · exact hb ((blockedHost_iff host).mpr hcon)
      cases fr with
      | error msg =>
        have hred : runHandler ⟨some w, some pc, ⟨true, err, amt⟩, some url,
            some ⟨proto, host⟩, Except.error msg, cn⟩ =
              ⟨502,
               RespBody.executionFailed "Service execution failed" msg
                 "The target URL may be unreachable or the proxy may be temporarily unavailable.",
               [], true, true⟩ := by
          simp [runHandler, hw, hu, hp, hhost, hb2]
        rw [hred]
        exact ⟨by simpa using hnone, fun hcon => absurd hcon (by simp)⟩
      | ok resp =>
        have hred : runHandler ⟨some w, some pc, ⟨true, err, amt⟩, some url,
            some ⟨proto, host⟩, Except.ok resp, cn⟩ =
              ⟨200,
               RespBody.success
                 ⟨url, resp.status, truncateText resp.text, resp.text.length, cn,
                  pc.txHash, pc.network, amt, true⟩,
               [("X-Payment-Settled", "true"), ("X-Payment-TxHash", pc.txHash)],
               true, true⟩ := by
          simp [runHandler, hw, hu, hp, hhost, hb2]
        rw [hred]
        exact ⟨by simpa using hnone, fun hcon => absurd hcon (by simp)⟩
  · have hp2 : allowedProtocol proto = false := by
      revert hp; cases allowedProtocol proto <;> simp
    have hred : runHandler ⟨some w, some pc, ⟨true, err, amt⟩, some url,
        some ⟨proto, host⟩, fr, cn⟩ =
          ⟨400, RespBody.jsonError "Only http:// and https:// URLs are allowed",
           [], true, false⟩ := by
      simp [runHandler, hw, hu, hp2]
    rw [hred]
    refine ⟨?_, fun _ => ⟨⟨_, rfl⟩, rfl⟩⟩
    simp only [true_iff]
    exact Or.inl (fun hcon => hp ((allowedProtocol_iff proto).mpr hcon))

theorem ssrf_guard_rejects_iff_witness :
    (runHandler ⟨some "0xWALLET", some ⟨"0xabc", Network.base⟩, ⟨true, none, none⟩,
        some "http://127.0.0.1/", parseUrl "http://127.0.0.1/",
        Except.ok ⟨200, "ok"⟩, "US"⟩).status = 400
    ∧ (runHandler ⟨some "0xWALLET", some ⟨"0xabc", Network.base⟩, ⟨true, none, none⟩,
        some "http://169.254.169.254/latest/meta-data",
        parseUrl "http://169.254.169.254/latest/meta-data",
        Except.ok ⟨200, "ok"⟩, "US"⟩).status = 400
    ∧ (runHandler ⟨some "0xWALLET", some ⟨"0xabc", Network.base⟩, ⟨true, none, none⟩,
        some "https://svc.internal", parseUrl "https://svc.internal",
        Except.ok ⟨200, "ok"⟩, "US"⟩).status = 400
    ∧ (runHandler ⟨some "0xWALLET", some ⟨"0xabc", Network.base⟩, ⟨true, none, none⟩,
        some "https://example.com", parseUrl "https://example.com",
        Except.ok ⟨200, "ok"⟩, "US"⟩).status = 200 :=
  ⟨(ssrf_guard_rejects_iff "0xWALLET" (by decide) ⟨"0xabc", Network.base⟩ none none
      "http://127.0.0.1/" (by decide) "http:" "127.0.0.1" (by decide)
      (Except.ok ⟨200, "ok"⟩) "US" _ rfl).1.mpr (by decide),
   (ssrf_guard_rejects_iff "0xWALLET" (by decide) ⟨"0xabc", Network.base⟩ none none
      "http://169.254.169.254/latest/meta-data" (by decide) "http:"
      "169.254.169.254" (by decide) (Except.ok ⟨200, "ok"⟩) "US" _ rfl).1.mpr
      (by decide),
   (ssrf_guard_rejects_iff "0xWALLET" (by decide) ⟨"0xabc", Network.base⟩ none none
      "https://svc.internal" (by decide) "https:" "svc.internal" (by decide)
      (Except.ok ⟨200, "ok"⟩) "US" _ rfl).1.mpr (by decide),
   rfl⟩

/-- C6: a request passing payment verification, URL validation and the outbound
fetch is answered 200, with the settlement headers `X-Payment-Settled: true`
and `X-Payment-TxHash` carrying the claim's transaction hash, alongside the
handler's JSON payload. -/
theorem success_sets_settlement_headers (w : String) (hw : w ≠ "")
    (pc : PaymentClaim) (err : Option String) (amt : Option ℚ) (url : String)
    (hu : url ≠ "") (proto host : String)
    (hproto : allowedProtocol proto = true)
    (hhost : blockedHost (lowerStr host) = false) (st : Nat) (body : String)
    (cn : String) :
    runHandler ⟨some w, some pc, ⟨true, err, amt⟩, some url, some ⟨proto, host⟩,
        Except.ok ⟨st, body⟩, cn⟩ =
      ⟨200,
       RespBody.success
         ⟨url, st, truncateText body, body.length, cn, pc.txHash, pc.network, amt,
          true⟩,
       [("X-Payment-Settled", "true"), ("X-Payment-TxHash", pc.txHash)],
       true, true⟩ := by
  simp [runHandler, hw, hu, hproto, hhost]

theorem success_sets_settlement_headers_witness :
    runHandler ⟨some "0xWALLET", some ⟨"0xdeadbeef", Network.base⟩,
        ⟨true, none, some (5 / 1000)⟩, some "https://example.com",
        some ⟨"https:", "example.com"⟩, Except.ok ⟨200, "hello"⟩, "US"⟩ =
      ⟨200,
       RespBody.success
         ⟨"https://example.com", 200, "hello", 5, "US", "0xdeadbeef", Network.base,
          some (5 / 1000), true⟩,
       [("X-Payment-Settled", "true"), ("X-Payment-TxHash", "0xdeadbeef")],
       true, true⟩ :=
  success_sets_settlement_headers "0xWALLET" (by decide)
    ⟨"0xdeadbeef", Network.base⟩ none (some (5 / 1000)) "https://example.com"
    (by decide) "https:" "example.com" (by decide) (by decide) 200 "hello" "US"

/-- C7: when the proxy fetch (or reading its body) throws after the fetch
client's internal retries, the handler answers 502 with a JSON error body, so
the failure is surfaced to the client rather than treated as success. -/
theorem fetch_failure_surfaces_as_502 (w : String) (hw : w ≠ "")
    (pc : PaymentClaim) (err : Option String) (amt : Option ℚ) (url : String)
    (hu : url ≠ "") (proto host : String)
    (hproto : allowedProtocol proto = true)
    (hhost : blockedHost (lowerStr host) = false) (msg : String) (cn : String) :
    runHandler ⟨some w, some pc, ⟨true, err, amt⟩, some url, some ⟨proto, host⟩,
        Except.error msg, cn⟩ =
      ⟨502,
       RespBody.executionFailed "Service execution failed" msg
         "The target URL may be unreachable or the proxy may be temporarily unavailable.",
       [], true, true⟩ := by
  simp [runHandler, hw, hu, hproto, hhost]

theorem fetch_failure_surfaces_as_502_witness :
    runHandler ⟨some "0xWALLET", some ⟨"0xdeadbeef", Network.base⟩,
        ⟨true, none, some (5 / 1000)⟩, some "https://example.com",
        some ⟨"https:", "example.com"⟩, Except.error "fetch failed after 3 attempts",
        "US"⟩ =
      ⟨502,
       RespBody.executionFailed "Service execution failed"
         "fetch failed after 3 attempts"
         "The target URL may be unreachable or the proxy may be temporarily unavailable.",
       [], true, true⟩ :=
  fetch_failure_surfaces_as_502 "0xWALLET" (by decide)
    ⟨"0xdeadbeef", Network.base⟩ none (some (5 / 1000)) "https://example.com"
    (by decide) "https:" "example.com" (by decide) (by decide)
    "fetch failed after 3 attempts" "US"

/-- C10: on every successful response the `text` field is the fetched body when
its length is at most 50000 characters and its first 50000 characters
otherwise, while `contentLength` always reports the full untruncated length. -/
theorem success_truncates_text_full_length (w : String) (hw : w ≠ "")
    (pc : PaymentClaim) (err : Option String) (amt : Option ℚ) (url : String)
    (hu : url ≠ "") (proto host : String)
    (hproto : allowedProtocol proto = true)
    (hhost : blockedHost (lowerStr host) = false) (st : Nat) (body : String)
    (cn : String) :
    ∃ p : SuccessPayload,
      (runHandler ⟨some w, some pc, ⟨true, err, amt⟩, some url,
          some ⟨proto, host⟩, Except.ok ⟨st, body⟩, cn⟩).body = RespBody.success p
      ∧ p.text = (if body.length ≤ 50000 then body else body.take 50000)
      ∧ p.contentLength = body.length := by
  refine ⟨⟨url, st, truncateText body, body.length, cn, pc.txHash, pc.network,
    amt, true⟩, ?_, ?_, rfl⟩
  · simp [runHandler, hw, hu, hproto, hhost]
  · show truncateText body = _
    unfold truncateText
    by_cases h : body.length > 50000
    · rw [if_pos h, if_neg (by omega)]
    · rw [if_neg h, if_pos (by omega)]

theorem success_truncates_text_full_length_witness :
    ∃ p : SuccessPayload,
      (runHandler ⟨some "0xWALLET", some ⟨"0xdeadbeef", Network.base⟩,
          ⟨true, none, some (5 / 1000)⟩, some "https://example.com",
          some ⟨"https:", "example.com"⟩, Except.ok ⟨200, "hello"⟩, "US"⟩).body =
        RespBody.success p
      ∧ p.text = (if ("hello" : String).length ≤ 50000 then "hello"
          else ("hello" : String).take 50000)
      ∧ p.contentLength = ("hello" : String).length :=
  success_truncates_text_full_length "0xWALLET" (by decide)
    ⟨"0xdeadbeef", Network.base⟩ none (some (5 / 1000)) "https://example.com"
    (by decide) "https:" "example.com" (by decide) (by decide) 200 "hello" "US"

end MarketGate
